import Mathlib

/-!
Verification of the ai-music-composer repository against its natural-language
specification.  The Python sources are shallowly embedded: amplitude arrays
become `List ℚ`, the filesystem that the library store touches becomes an
explicit `FS` state (the set of existing audio files plus the parsed contents
of the JSON sidecar), and each spot where the Python code can hit an I/O
failure that is caught by a `try/except` is modelled by an explicit boolean
success flag passed to the embedded function.
-/

namespace MusicComposer

/-! ### Style catalog — src/music_styles.py -/

/-- One entry of `MusicStyles.style_configs` (src/music_styles.py lines 3-46). -/
structure StyleConfig where
  name : String
  description : String
  keywords : List String
  tempo : String
  mood : String
  deriving DecidableEq

/-- The static `style_configs` dictionary, as an association list in the
dictionary's insertion order (Python dicts preserve insertion order). -/
def style_configs : List (String × StyleConfig) :=
  [ ("jazz",
     { name := "Jazz", description := "Smooth, sophisticated, improvisational",
       keywords := ["jazz", "swing", "blues", "piano", "saxophone", "smooth"],
       tempo := "medium", mood := "sophisticated" }),
    ("classical",
     { name := "Classical", description := "Orchestral, elegant, timeless",
       keywords := ["classical", "orchestral", "symphony", "piano", "violin", "elegant"],
       tempo := "varied", mood := "elegant" }),
    ("electronic",
     { name := "Electronic", description := "Synthesized, modern, digital",
       keywords := ["electronic", "synth", "digital", "beats", "modern", "futuristic"],
       tempo := "fast", mood := "energetic" }),
    ("rock",
     { name := "Rock", description := "Guitar-driven, energetic, powerful",
       keywords := ["rock", "guitar", "drums", "electric", "powerful", "energetic"],
       tempo := "fast", mood := "energetic" }),
    ("ambient",
     { name := "Ambient", description := "Atmospheric, peaceful, meditative",
       keywords := ["ambient", "atmospheric", "peaceful", "ethereal", "calm", "meditative"],
       tempo := "slow", mood := "peaceful" }),
    ("pop",
     { name := "Pop", description := "Catchy, melodic, mainstream",
       keywords := ["pop", "catchy", "melodic", "upbeat", "mainstream", "radio-friendly"],
       tempo := "medium-fast", mood := "upbeat" }) ]

/-- Key lookup in `style_configs` (`style in self.style_configs` /
`self.style_configs[style]`). -/
def lookupStyle (style : String) : Option StyleConfig :=
  (style_configs.find? (fun p => p.1 == style)).map Prod.snd

/-- `MusicStyles.get_style_prompt` (src/music_styles.py lines 48-56):
unknown style returns `base_prompt`; otherwise the prompt is the base plus
the first 3 keywords comma-joined plus the mood label. -/
def get_style_prompt (base_prompt style : String) : String :=
  match lookupStyle style with
  | none => base_prompt
  | some config =>
      base_prompt ++ ", " ++ String.intercalate ", " (config.keywords.take 3)
        ++ ", " ++ config.mood

/-! ### Audio post-processor — src/audio_processor.py

Amplitude arrays are `List ℚ` (one rational per float sample, exact
arithmetic in place of IEEE floats).  `AudioProcessor.sample_rate` is the
constant 32000. -/

def sample_rate : ℕ := 32000

/-- `np.max(np.abs(audio_array))`, the peak absolute amplitude.  (On an empty
array numpy raises; the claims only quantify over non-silent, hence
non-empty, inputs, where the `0` seed of the fold is absorbed.) -/
def peakAbs (a : List ℚ) : ℚ := (a.map (fun x => |x|)).foldr max 0

/-- The samples `AudioProcessor.save_audio` writes to disk
(src/audio_processor.py line 23 then 26): the input divided element-wise by
its peak absolute amplitude.  The surrounding try/except and the boolean
return value are modelled separately where a claim needs them. -/
def save_audio_written (a : List ℚ) : List ℚ :=
  a.map (fun x => x / peakAbs a)

/-- The samples `AudioProcessor.create_audio_buffer` writes into the WAV
buffer (src/audio_processor.py lines 83-88): `sf.write(buffer, audio_array,
self.sample_rate)` writes the array as-is — there is no normalization step
in that function. -/
def create_audio_buffer_written (a : List ℚ) : List ℚ := a

/-- `np.linspace(0, 1, n)`: entry `i` is `i / (n - 1)` (for `n = 1` numpy
yields `[0.]`, matched here because `0 / 0 = 0` in `ℚ`). -/
def fade_in_curve (n : ℕ) : List ℚ :=
  (List.range n).map (fun i => (i : ℚ) / ((n : ℚ) - 1))

/-- `np.linspace(1, 0, n)`: entry `i` is `1 - i / (n - 1)`. -/
def fade_out_curve (n : ℕ) : List ℚ :=
  (List.range n).map (fun i => 1 - (i : ℚ) / ((n : ℚ) - 1))

/-- The fade-in step of `AudioProcessor.add_fade_effects`
(src/audio_processor.py lines 53-55): `audio_array[:n] *= fade_in` is
executed only when `len(audio_array) > n`.  `n` is the window in samples,
`int(fade_in_duration * self.sample_rate)` in the source. -/
def apply_fade_in (a : List ℚ) (n : ℕ) : List ℚ :=
  if n < a.length then (a.take n).zipWith (· * ·) (fade_in_curve n) ++ a.drop n
  else a

/-- The fade-out step of `AudioProcessor.add_fade_effects`
(src/audio_processor.py lines 57-59): `audio_array[-n:] *= fade_out` is
executed only when `len(audio_array) > n`. -/
def apply_fade_out (a : List ℚ) (n : ℕ) : List ℚ :=
  if n < a.length then
    a.take (a.length - n) ++ (a.drop (a.length - n)).zipWith (· * ·) (fade_out_curve n)
  else a

/-- `AudioProcessor.add_fade_effects` (src/audio_processor.py lines 43-65):
the fade-in step followed by the fade-out step.  The function is total: the
Python try/except can never fire for positive windows, and on any exception
the original array is returned, so no error escapes in either case. -/
def add_fade_effects (a : List ℚ) (fade_in_samples fade_out_samples : ℕ) : List ℚ :=
  apply_fade_out (apply_fade_in a fade_in_samples) fade_out_samples

/-! ### Generation adapter — src/music_generator.py

The external model is opaque: whether `load_model`'s two `from_pretrained`
calls succeed is an oracle boolean `loadOk`, and the whole inference block
inside `generate_music`'s `try` is an oracle `infer : Except String (List ℚ)`
(error message or produced waveform).  Wall-clock time is the opaque string
`elapsed`. -/

/-- The adapter state: `self.model_loaded` (src/music_generator.py line 12). -/
structure GenState where
  model_loaded : Bool
  deriving DecidableEq

/-- `MusicGenerator.load_model` (src/music_generator.py lines 15-32): on
success sets `model_loaded = True` and returns `True`; any exception is
caught and `False` is returned with the flag untouched. -/
def load_model (g : GenState) (loadOk : Bool) : GenState × Bool :=
  if loadOk then ({ model_loaded := true }, true) else (g, false)

/-- `MusicGenerator.generate_music` (src/music_generator.py lines 34-74):
if the model is not loaded it first calls `load_model`, returning
`(None, "Failed to load model")` when that fails; then the inference block
runs under `try`, returning `(None, "Error generating music: " ++ e)` on an
exception and `(audio, "Generated in <t> seconds")` on success. -/
def generate_music (g : GenState) (loadOk : Bool)
    (infer : Except String (List ℚ)) (elapsed : String) :
    GenState × (Option (List ℚ) × String) :=
  if g.model_loaded then
    match infer with
    | Except.error e => (g, (none, "Error generating music: " ++ e))
    | Except.ok a => (g, (some a, "Generated in " ++ elapsed ++ " seconds"))
  else
    match load_model g loadOk with
    | (g1, true) =>
        match infer with
        | Except.error e => (g1, (none, "Error generating music: " ++ e))
        | Except.ok a => (g1, (some a, "Generated in " ++ elapsed ++ " seconds"))
    | (g1, false) => (g1, (none, "Failed to load model"))

/-! ### Library store — src/export_manager.py

The filesystem state visible to `ExportManager` is the list of existing
audio-file paths plus the parsed contents of the JSON sidecar
(`music_metadata.json`); `none` means the sidecar file does not exist.
Each sidecar entry is a `MusicRecord` (the dict built in
`save_music_file`; the optional extra-metadata merge adds keys no claim
reads and is not modelled). -/

structure MusicRecord where
  filename : String
  prompt : String
  timestamp : String
  filepath : String
  file_size : ℕ
  deriving DecidableEq

structure FS where
  files : List String
  sidecar : Option (List MusicRecord)
  deriving DecidableEq

/-- Number of records currently stored in the sidecar file. -/
def recordCount (fs : FS) : ℕ := (fs.sidecar.getD []).length

/-- `ExportManager.load_music_library` (src/export_manager.py lines 71-90):
returns `[]` when the sidecar file does not exist, otherwise the sidecar's
records filtered to those whose `filepath` still exists.  The function only
reads, so the state component of the result is the input state unchanged. -/
def load_music_library (fs : FS) : FS × List MusicRecord :=
  match fs.sidecar with
  | none => (fs, [])
  | some l => (fs, l.filter (fun m => fs.files.contains m.filepath))

/-- `ExportManager.save_metadata` (src/export_manager.py lines 51-69):
reads the sidecar (missing file ↦ `[]`), appends the record and rewrites the
file.  Any exception is caught *inside this function* and only logged;
`writeOk = false` models such a failure, leaving the sidecar as it was. -/
def save_metadata (fs : FS) (m : MusicRecord) (writeOk : Bool) : FS :=
  if writeOk then { fs with sidecar := some (fs.sidecar.getD [] ++ [m]) }
  else fs

/-- `ExportManager.save_music_file` (src/export_manager.py lines 17-49):
builds `generated_music/music_<timestamp>.wav`, writes the audio via
`AudioProcessor.save_audio` (success modelled by `audio_write_ok`; on
failure `save_audio` returns `False` and `save_music_file` returns `None`),
then records the metadata via `save_metadata` (whose own failure,
`meta_write_ok = false`, is swallowed there) and returns the filepath. -/
def save_music_file (fs : FS) (audio : List ℚ) (prompt timestamp : String)
    (audio_write_ok meta_write_ok : Bool) : FS × Option String :=
  let filename := "music_" ++ timestamp ++ ".wav"
  let filepath := "generated_music/" ++ filename
  if audio_write_ok then
    let fs1 : FS := { fs with files := fs.files ++ [filepath] }
    let record : MusicRecord :=
      { filename := filename, prompt := prompt, timestamp := timestamp,
        filepath := filepath, file_size := audio.length }
    (save_metadata fs1 record meta_write_ok, some filepath)
  else (fs, none)

/-- `ExportManager.delete_music_file` (src/export_manager.py lines 92-110):
removes the file if present, reloads the library (which prunes records whose
file is gone), drops the records matching `filepath`, and rewrites the
sidecar with the result, returning `True`.  `writeOk = false` models an
exception during the sidecar rewrite (caught, returns `False`; the file
removal has already happened). -/
def delete_music_file (fs : FS) (filepath : String) (writeOk : Bool) : FS × Bool :=
  let files1 := if fs.files.contains filepath then fs.files.erase filepath else fs.files
  let fs1 : FS := { fs with files := files1 }
  let all_metadata := (load_music_library fs1).2
  let updated_metadata := all_metadata.filter (fun m => m.filepath != filepath)
  if writeOk then ({ fs1 with sidecar := some updated_metadata }, true)
  else (fs1, false)

/-- Python's `sorted(key=lambda x: x['timestamp'], reverse=True)` sorts by
this relation: `a` may precede `b` when `b`'s timestamp is ≤ `a`'s.  Python's
sort is stable, so it coincides extensionally with insertion sort by the
same total preorder. -/
def tsDesc (a b : MusicRecord) : Prop := b.timestamp ≤ a.timestamp

instance : DecidableRel tsDesc := fun a b =>
  inferInstanceAs (Decidable (b.timestamp ≤ a.timestamp))

instance : IsTotal MusicRecord tsDesc :=
  ⟨fun a b => (le_total b.timestamp a.timestamp).imp id id⟩

instance : IsTrans MusicRecord tsDesc :=
  ⟨fun _ _ _ hab hbc => le_trans hbc hab⟩

/-- `ExportManager.get_recent_music` (src/export_manager.py lines 112-115):
the loaded library sorted by timestamp descending, truncated to `limit`. -/
def get_recent_music (fs : FS) (limit : ℕ) : List MusicRecord :=
  (List.insertionSort tsDesc (load_music_library fs).2).take limit

/-! ### Helper lemmas -/

/-- Characterization of the records `load_music_library` returns: exactly the
sidecar entries whose referenced file exists. -/
theorem mem_load_music_library {fs : FS} {r : MusicRecord} :
    r ∈ (load_music_library fs).2 ↔ r ∈ fs.sidecar.getD [] ∧ r.filepath ∈ fs.files := by
  cases h : fs.sidecar with
  | none => simp [load_music_library, h]
  | some l =>
      simp only [load_music_library, h, Option.getD_some, List.mem_filter, List.contains,
        List.elem_iff]

/-! ### Claim theorems -/

/-- C5: `get_style_prompt` returns the base prompt unchanged for a style id
not in the catalog; for a style id in the catalog it returns the base prompt
followed by the style's first 3 keywords comma-joined and its mood label —
in particular a string starting with the base prompt. -/
theorem get_style_prompt_spec (base_prompt style : String) :
    (lookupStyle style = none → get_style_prompt base_prompt style = base_prompt) ∧
    (∀ c, lookupStyle style = some c →
      get_style_prompt base_prompt style =
        base_prompt ++ (", " ++ String.intercalate ", " (c.keywords.take 3)
          ++ ", " ++ c.mood)) := by
  constructor
  · intro h
    simp [get_style_prompt, h]
  · intro c hc
    simp [get_style_prompt, hc, String.append_assoc]

/-- Witness for C5: one style in the catalog, one not. -/
theorem get_style_prompt_spec_witness :
    get_style_prompt "calm melody" "techno" = "calm melody" ∧
    get_style_prompt "calm melody" "jazz" =
      "calm melody" ++ (", " ++ "jazz, swing, blues" ++ ", " ++ "sophisticated") := by
  constructor
  · exact (get_style_prompt_spec "calm melody" "techno").1 rfl
  · exact ((get_style_prompt_spec "calm melody" "jazz").2 _ rfl).trans (by decide)

/-- C6: a sample shorter than the fade-in window passes through the fade-in
step untouched, one shorter than the fade-out window passes through the
fade-out step untouched, and a sample shorter than both windows is returned
by `add_fade_effects` entirely unchanged; the embedded function is total,
so no error is raised on such inputs. -/
theorem add_fade_effects_short (a : List ℚ) (n_in n_out : ℕ) :
    (a.length < n_in → apply_fade_in a n_in = a) ∧
    (a.length < n_out → apply_fade_out a n_out = a) ∧
    (a.length < n_in → a.length < n_out → add_fade_effects a n_in n_out = a) := by
  refine ⟨fun h => ?_, fun h => ?_, fun h1 h2 => ?_⟩
  · rw [apply_fade_in, if_neg (by omega)]
  · rw [apply_fade_out, if_neg (by omega)]
  · rw [add_fade_effects, apply_fade_in, if_neg (by omega), apply_fade_out,
      if_neg (by omega)]

/-- Witness for C6: a 2-sample array with fade windows of 3 and 4 samples. -/
theorem add_fade_effects_short_witness :
    add_fade_effects [1, 2] 3 4 = [1, 2] :=
  (add_fade_effects_short [1, 2] 3 4).2.2 (by decide) (by decide)

/-- C10: a fade ramp is applied only when the sample length strictly exceeds
the window (`len(audio_array) > n`): at length exactly equal to the window
the respective fade step is the identity, and when the length equals both
windows `add_fade_effects` returns the sample unchanged. -/
theorem add_fade_effects_boundary (a : List ℚ) (n_in n_out : ℕ) :
    (a.length = n_in → apply_fade_in a n_in = a) ∧
    (a.length = n_out → apply_fade_out a n_out = a) ∧
    (a.length = n_in → a.length = n_out → add_fade_effects a n_in n_out = a) := by
  refine ⟨fun h => ?_, fun h => ?_, fun h1 h2 => ?_⟩
  · rw [apply_fade_in, if_neg (by omega)]
  · rw [apply_fade_out, if_neg (by omega)]
  · rw [add_fade_effects, apply_fade_in, if_neg (by omega), apply_fade_out,
      if_neg (by omega)]

/-- Witness for C10: a 3-sample array with both fade windows exactly 3. -/
theorem add_fade_effects_boundary_witness :
    add_fade_effects [1, 2, 3] 3 3 = [1, 2, 3] :=
  (add_fade_effects_boundary [1, 2, 3] 3 3).2.2 (by decide) (by decide)

/-- C3: `generate_music` never lets a failure escape — every path of the
embedded function returns a pair.  When the model is not loaded and loading
fails the result is `(none, "Failed to load model")`; when the model is
available, an inference failure is caught and returned as
`(none, "Error generating music: " ++ e)`, and a successful inference
returns the waveform with the timing message. -/
theorem generate_music_boundary (g : GenState) (loadOk : Bool)
    (infer : Except String (List ℚ)) (elapsed : String) :
    (g.model_loaded = false → loadOk = false →
      (generate_music g loadOk infer elapsed).2 = (none, "Failed to load model")) ∧
    (∀ e, infer = Except.error e → (g.model_loaded || loadOk) = true →
      (generate_music g loadOk infer elapsed).2 =
        (none, "Error generating music: " ++ e)) ∧
    (∀ a, infer = Except.ok a → (g.model_loaded || loadOk) = true →
      (generate_music g loadOk infer elapsed).2 =
        (some a, "Generated in " ++ elapsed ++ " seconds")) := by
  obtain ⟨ml⟩ := g
  cases ml <;> cases loadOk <;> cases infer <;>
    simp [generate_music, load_model]

/-- Witness for C3: unloaded model, failing load. -/
theorem generate_music_boundary_witness :
    (generate_music ⟨false⟩ false (Except.ok [1]) "2.00").2 =
      (none, "Failed to load model") :=
  (generate_music_boundary ⟨false⟩ false (Except.ok [1]) "2.00").1 rfl rfl

/-- C8: `load_music_library` returns exactly the sidecar records whose
referenced file exists, and performs no write: the state after the call is
identical to the state before it, so pruned entries are not written back. -/
theorem load_music_library_spec (fs : FS) (r : MusicRecord) :
    (load_music_library fs).1 = fs ∧
    (r ∈ (load_music_library fs).2 ↔
      r ∈ fs.sidecar.getD [] ∧ r.filepath ∈ fs.files) := by
  refine ⟨?_, mem_load_music_library⟩
  cases h : fs.sidecar <;> simp [load_music_library, h]

/-- C1 counterexample: with the audio write succeeding and the metadata
write failing, `save_music_file` still returns the filepath — not `none` —
while the sidecar ends up without the record (here it was never created). -/
theorem save_music_file_meta_failure_counterexample :
    (save_music_file ⟨[], none⟩ [1] "p" "20240101_000000" true false).2 =
      some "generated_music/music_20240101_000000.wav" ∧
    (save_music_file ⟨[], none⟩ [1] "p" "20240101_000000" true false).1.sidecar =
      none := by
  constructor
  · decide
  · rfl

/-- C1 amended: `save_music_file` returns `none` exactly when the audio
write fails; when the audio write succeeds the filepath is returned even if
the metadata write fails, because `save_metadata` catches its own failure
and only logs it — in that case the sidecar is left as it was, so the audio
file on disk has no record. -/
theorem save_music_file_result (fs : FS) (audio : List ℚ) (prompt ts : String)
    (audio_write_ok meta_write_ok : Bool) :
    ((save_music_file fs audio prompt ts audio_write_ok meta_write_ok).2 = none ↔
      audio_write_ok = false) ∧
    (audio_write_ok = true →
      (save_music_file fs audio prompt ts audio_write_ok meta_write_ok).2 =
        some ("generated_music/" ++ ("music_" ++ ts ++ ".wav"))) ∧
    (audio_write_ok = true → meta_write_ok = false →
      (save_music_file fs audio prompt ts audio_write_ok meta_write_ok).1.sidecar =
        fs.sidecar) := by
  cases audio_write_ok <;> cases meta_write_ok <;>
    simp [save_music_file, save_metadata]

/-- Witness for C1's amended theorem: successful audio write, failed
metadata write. -/
theorem save_music_file_result_witness :
    (save_music_file ⟨[], none⟩ [1] "p" "20240101_000000" true false).2 =
      some ("generated_music/" ++ ("music_" ++ "20240101_000000" ++ ".wav")) ∧
    (save_music_file ⟨[], none⟩ [1] "p" "20240101_000000" true false).1.sidecar =
      (⟨[], none⟩ : FS).sidecar :=
  ⟨(save_music_file_result ⟨[], none⟩ [1] "p" "20240101_000000" true false).2.1 rfl,
   (save_music_file_result ⟨[], none⟩ [1] "p" "20240101_000000" true false).2.2 rfl rfl⟩

/-- C2 counterexample: a sidecar holding one stale record (its file is
missing).  Deleting a filepath present nowhere returns `true`, but the
rewrite prunes the stale record: the sidecar record count drops from 1
to 0, so the sidecar is not left unchanged in record count. -/
theorem delete_music_file_count_counterexample :
    (delete_music_file ⟨[], some [⟨"a.wav", "p", "t", "generated_music/a.wav", 0⟩]⟩
        "other.wav" true).2 = true ∧
    "other.wav" ∉
      ((load_music_library
          ⟨[], some [⟨"a.wav", "p", "t", "generated_music/a.wav", 0⟩]⟩).2.map
        MusicRecord.filepath) ∧
    recordCount ⟨[], some [⟨"a.wav", "p", "t", "generated_music/a.wav", 0⟩]⟩ = 1 ∧
    recordCount (delete_music_file
        ⟨[], some [⟨"a.wav", "p", "t", "generated_music/a.wav", 0⟩]⟩
        "other.wav" true).1 = 0 := by
  decide

/-- C2 amended: when every sidecar record references an existing file and
the target filepath matches no record of the library, `delete_music_file`
(with the sidecar rewrite succeeding) returns `true` and leaves the sidecar
record count unchanged.  Without the first hypothesis the rewrite also
prunes stale records, so the raw count can drop. -/
theorem delete_music_file_absent (fs : FS) (p : String)
    (hvalid : ∀ r ∈ fs.sidecar.getD [], r.filepath ∈ fs.files)
    (habsent : ∀ r ∈ (load_music_library fs).2, r.filepath ≠ p) :
    (delete_music_file fs p true).2 = true ∧
    recordCount (delete_music_file fs p true).1 = recordCount fs := by
  have hne : ∀ r ∈ fs.sidecar.getD [], r.filepath ≠ p := fun r hr =>
    habsent r (mem_load_music_library.mpr ⟨hr, hvalid r hr⟩)
  have hdel : delete_music_file fs p true =
      (⟨if fs.files.contains p then fs.files.erase p else fs.files,
        some (((load_music_library
            ⟨if fs.files.contains p then fs.files.erase p else fs.files,
              fs.sidecar⟩).2).filter (fun m => m.filepath != p))⟩, true) := rfl
  refine ⟨rfl, ?_⟩
  rw [hdel]
  cases hs : fs.sidecar with
  | none => simp [load_music_library, recordCount, hs]
  | some l =>
      have hl : ∀ r ∈ l, r.filepath ∈ fs.files ∧ r.filepath ≠ p := by
        intro r hr
        have hr' : r ∈ fs.sidecar.getD [] := by rw [hs]; exact hr
        exact ⟨hvalid r hr', hne r hr'⟩
      have hcont : ∀ r ∈ l,
          ((if fs.files.contains p then fs.files.erase p
            else fs.files).contains r.filepath) = true := by
        intro r hr
        have h := hl r hr
        unfold List.contains
        split
        · exact List.elem_iff.mpr ((List.mem_erase_of_ne h.2).mpr h.1)
        · exact List.elem_iff.mpr h.1
      have hbne : ∀ r ∈ l, (r.filepath != p) = true := fun r hr =>
        bne_iff_ne.mpr (hl r hr).2
      simp only [recordCount, load_music_library, hs, Option.getD_some]
      rw [List.filter_eq_self.mpr hcont, List.filter_eq_self.mpr hbne]

/-- Witness for C2's amended theorem: one valid record, deleting an
unrelated filepath keeps the count at 1. -/
theorem delete_music_file_absent_witness :
    (delete_music_file ⟨["generated_music/a.wav"],
        some [⟨"a.wav", "p", "t", "generated_music/a.wav", 0⟩]⟩
        "other.wav" true).2 = true ∧
    recordCount (delete_music_file ⟨["generated_music/a.wav"],
        some [⟨"a.wav", "p", "t", "generated_music/a.wav", 0⟩]⟩
        "other.wav" true).1 =
      recordCount ⟨["generated_music/a.wav"],
        some [⟨"a.wav", "p", "t", "generated_music/a.wav", 0⟩]⟩ :=
  delete_music_file_absent
    ⟨["generated_music/a.wav"], some [⟨"a.wav", "p", "t", "generated_music/a.wav", 0⟩]⟩
    "other.wav" (by decide) (by decide)

/-- C9: whenever `delete_music_file` returns `true`, every record remaining
in the sidecar references a file that existed at call time, is distinct from
the deleted filepath, and still exists after the call — the rewrite is built
from the pruned library, so all stale records are removed, not only the
targeted one. -/
theorem delete_music_file_invariant (fs : FS) (p : String) (writeOk : Bool)
    (h : (delete_music_file fs p writeOk).2 = true) :
    ∀ r ∈ (delete_music_file fs p writeOk).1.sidecar.getD [],
      r.filepath ∈ fs.files ∧ r.filepath ≠ p ∧
      r.filepath ∈ (delete_music_file fs p writeOk).1.files := by
  cases writeOk with
  | false => exact absurd h (by simp [delete_music_file])
  | true =>
      intro r hr
      have hdel : delete_music_file fs p true =
          (⟨if fs.files.contains p then fs.files.erase p else fs.files,
            some (((load_music_library
                ⟨if fs.files.contains p then fs.files.erase p else fs.files,
                  fs.sidecar⟩).2).filter (fun m => m.filepath != p))⟩, true) := rfl
      rw [hdel] at hr ⊢
      simp only [Option.getD_some, List.mem_filter] at hr
      obtain ⟨hmem, hbne⟩ := hr
      have hfp : r ∈ fs.sidecar.getD [] ∧
          r.filepath ∈ (if fs.files.contains p then fs.files.erase p
            else fs.files) :=
        mem_load_music_library.mp hmem
      have hsub : r.filepath ∈ fs.files := by
        rcases hfp with ⟨-, hin⟩
        revert hin
        split
        · exact fun hin => (List.erase_sublist p fs.files).subset hin
        · exact id
      exact ⟨hsub, bne_iff_ne.mp hbne, hfp.2⟩

/-- Witness for C9: deleting an extant file leaves the one valid record,
which references a surviving file. -/
theorem delete_music_file_invariant_witness :
    ("generated_music/a.wav" : String) ∈
      ["generated_music/a.wav", "generated_music/b.wav"] ∧
    ("generated_music/a.wav" : String) ≠ "generated_music/b.wav" ∧
    ("generated_music/a.wav" : String) ∈ ["generated_music/a.wav"] :=
  delete_music_file_invariant
    ⟨["generated_music/a.wav", "generated_music/b.wav"],
      some [⟨"a.wav", "p", "t", "generated_music/a.wav", 0⟩]⟩
    "generated_music/b.wav" true (by decide)
    ⟨"a.wav", "p", "t", "generated_music/a.wav", 0⟩ (by decide)

/-- The peak absolute amplitude is never negative. -/
theorem peakAbs_nonneg (a : List ℚ) : 0 ≤ peakAbs a := by
  induction a with
  | nil => simp [peakAbs]
  | cons x xs ih =>
      simp only [peakAbs, List.map_cons, List.foldr_cons]
      exact le_max_of_le_right ih

/-- Folding `max` over a list divided by a positive constant divides the
fold. -/
theorem foldr_max_div (l : List ℚ) (p : ℚ) (hp : 0 < p) :
    (l.map (fun x => x / p)).foldr max 0 = l.foldr max 0 / p := by
  induction l with
  | nil => simp
  | cons x xs ih =>
      simp only [List.map_cons, List.foldr_cons, ih, max_div_div_right hp.le]

/-- C4 counterexample: `create_audio_buffer` writes the array as-is, so a
non-silent sample with peak 1/2 is written with peak 1/2, not 1. -/
theorem create_audio_buffer_no_normalization :
    peakAbs [(1 : ℚ)/2] ≠ 0 ∧
    create_audio_buffer_written [(1 : ℚ)/2] = [(1 : ℚ)/2] ∧
    peakAbs (create_audio_buffer_written [(1 : ℚ)/2]) ≠ 1 := by
  have h2 : |(1 : ℚ)/2| = 1/2 := abs_of_pos (by norm_num)
  refine ⟨?_, rfl, ?_⟩ <;>
    norm_num [peakAbs, create_audio_buffer_written, h2]

/-- C4 amended: only `save_audio` normalizes by the peak absolute amplitude,
so for non-silent input the audio it writes has peak exactly 1;
`create_audio_buffer` performs no normalization and writes the sample
unchanged. -/
theorem audio_serialization_normalization (a : List ℚ) (h : peakAbs a ≠ 0) :
    peakAbs (save_audio_written a) = 1 ∧ create_audio_buffer_written a = a := by
  refine ⟨?_, rfl⟩
  have hp : 0 < peakAbs a := lt_of_le_of_ne (peakAbs_nonneg a) (Ne.symm h)
  have habs : (save_audio_written a).map (fun x => |x|) =
      (a.map (fun x => |x|)).map (fun x => x / peakAbs a) := by
    simp only [save_audio_written, List.map_map]
    refine List.map_congr_left fun x _ => ?_
    simp [Function.comp, abs_div, abs_of_pos hp]
  rw [peakAbs, habs, foldr_max_div _ _ hp]
  exact div_self h

/-- Witness for C4's amended theorem at the non-silent sample `[2, -1]`. -/
theorem audio_serialization_normalization_witness :
    peakAbs (save_audio_written [2, -1]) = 1 ∧
    create_audio_buffer_written ([2, -1] : List ℚ) = [2, -1] :=
  audio_serialization_normalization [2, -1] (by norm_num [peakAbs])

/-- C7: `get_recent_music` is the loaded library sorted by timestamp
descending and truncated to `limit`: it equals exactly that, is sorted
descending, has at most `limit` entries, draws only from the library, and
for a library of three records with strictly increasing timestamps
`get_recent_music _ 2` returns the two newest, newest first. -/
theorem get_recent_music_spec (fs : FS) (limit : ℕ) :
    get_recent_music fs limit =
      (List.insertionSort tsDesc (load_music_library fs).2).take limit ∧
    List.Sorted tsDesc (get_recent_music fs limit) ∧
    (get_recent_music fs limit).length ≤ limit ∧
    (∀ r ∈ get_recent_music fs limit, r ∈ (load_music_library fs).2) ∧
    (∀ r1 r2 r3 : MusicRecord,
      r1.timestamp < r2.timestamp → r2.timestamp < r3.timestamp →
      get_recent_music
          ⟨[r1.filepath, r2.filepath, r3.filepath], some [r1, r2, r3]⟩ 2 =
        [r3, r2]) := by
  refine ⟨rfl, ?_, ?_, ?_, ?_⟩
  · exact List.Pairwise.sublist (List.take_sublist _ _)
      (List.sorted_insertionSort tsDesc _)
  · exact List.length_take_le _ _
  · intro r hr
    exact (List.perm_insertionSort tsDesc _).subset (List.take_subset _ _ hr)
  · intro r1 r2 r3 h12 h23
    have n12 : ¬ tsDesc r1 r2 := not_le.mpr h12
    have n13 : ¬ tsDesc r1 r3 := not_le.mpr (h12.trans h23)
    have n23 : ¬ tsDesc r2 r3 := not_le.mpr h23
    have hload : (load_music_library
        ⟨[r1.filepath, r2.filepath, r3.filepath], some [r1, r2, r3]⟩).2 =
        [r1, r2, r3] := by
      simp only [load_music_library]
      rw [List.filter_eq_self.mpr]
      intro a ha
      fin_cases ha <;> simp [List.contains, List.elem_iff]
    simp only [get_recent_music, hload, List.insertionSort, List.orderedInsert,
      if_neg n12, if_neg n13, if_neg n23, List.take]

/-- Witness for C7's library scenario with timestamps t1 < t2 < t3. -/
theorem get_recent_music_spec_witness :
    get_recent_music ⟨["f1", "f2", "f3"],
        some [⟨"n1", "p", "t1", "f1", 0⟩, ⟨"n2", "p", "t2", "f2", 0⟩,
              ⟨"n3", "p", "t3", "f3", 0⟩]⟩ 2 =
      [⟨"n3", "p", "t3", "f3", 0⟩, ⟨"n2", "p", "t2", "f2", 0⟩] :=
  (get_recent_music_spec ⟨[], none⟩ 0).2.2.2.2
    ⟨"n1", "p", "t1", "f1", 0⟩ ⟨"n2", "p", "t2", "f2", 0⟩
    ⟨"n3", "p", "t3", "f3", 0⟩
    (String.lt_iff_toList_lt.mpr (by decide))
    (String.lt_iff_toList_lt.mpr (by decide))

end MusicComposer
